import Mathlib

/-!
Verification of the configuration-file loader of this repository.

The program under study is the `readConfig` snippet:

```
func readConfig() error {
    file, err := os.Open("config.json")
    if err != nil {
        return fmt.Errorf("opening config file: %s", err)
    }
    defer file.Close()
    return nil
}
```

The repository's `Errors/Readme.md` shows the same function written with
the `%w` verb instead of `%s`, and explains that only `%w` keeps the
original error inspectable by `errors.Is`.

We embed the Go error values the snippet manipulates, the `os.Open`
primitive over an abstract filesystem, and the loader itself, which we
instrument with an event trace recording each open and close call so
that resource-release claims become statements about the trace.
-/

namespace ConfigLoader

/-- Go error values relevant to the snippet.
`errNotExist` is the platform's native not-found sentinel
(`os.ErrNotExist`).  `pathError` is the `*os.PathError` produced by a
failing `os.Open`; its `Unwrap` returns the cause.  `errorString` is the
flat error produced by `fmt.Errorf` without the `%w` verb (no `Unwrap`).
`wrapError` is the error produced by `fmt.Errorf` with `%w`; its
`Unwrap` returns the cause. -/
inductive GoError where
  | errNotExist : GoError
  | pathError (op path : String) (cause : GoError) : GoError
  | errorString (msg : String) : GoError
  | wrapError (msg : String) (cause : GoError) : GoError
deriving DecidableEq, Repr

/-- The `Error()` method: the displayed text of an error.
A `*os.PathError` displays as `op + " " + path + ": " + cause`;
the not-found sentinel displays the platform message. -/
def GoError.error : GoError → String
  | .errNotExist => "no such file or directory"
  | .pathError op path cause => op ++ " " ++ path ++ ": " ++ cause.error
  | .errorString msg => msg
  | .wrapError msg _ => msg

/-- The `errors.Unwrap` function: only `*os.PathError` and the `%w`
wrapper expose a cause; flat errors expose none. -/
def GoError.unwrap : GoError → Option GoError
  | .pathError _ _ cause => some cause
  | .wrapError _ cause => some cause
  | _ => none

/-- The `errors.Is` check: the target matches the error itself or,
recursively, anything reachable through `Unwrap`. -/
def errorsIs : GoError → GoError → Bool
  | e, target =>
    e = target ||
      match e with
      | .pathError _ _ cause => errorsIs cause target
      | .wrapError _ cause => errorsIs cause target
      | _ => false

/-- A file handle as returned by a successful `os.Open`. -/
structure File where
  path : String
deriving DecidableEq, Repr

/-- An abstract filesystem: which paths can be opened for reading. -/
structure FS where
  present : String → Bool

/-- The `os.Open` primitive: on a present path it yields a handle, on
an absent path it fails with `*os.PathError{Op:"open", Path:path,
Err:ErrNotExist}`. -/
def osOpen (fs : FS) (path : String) : Except GoError File :=
  if fs.present path then .ok ⟨path⟩
  else .error (.pathError "open" path .errNotExist)

/-- Observable resource events of one call, in program order. -/
inductive Event where
  | openCall (path : String) (ok : Bool) : Event
  | closeCall (path : String) : Event
deriving DecidableEq, Repr

/-- Number of open attempts in a trace. -/
def openCount (events : List Event) : Nat :=
  (events.filter fun e => match e with | .openCall _ _ => true | _ => false).length

/-- Number of close/release calls in a trace. -/
def releaseCount (events : List Event) : Nat :=
  (events.filter fun e => match e with | .closeCall _ => true | _ => false).length

/-- The loader body, as a function of the outcome of the one `os.Open`
call it makes.  Translated line by line from `readConfig` in the
source: if `err != nil` it returns `fmt.Errorf("opening config file:
%s", err)` at once — before `defer file.Close()` is registered — and
otherwise the deferred `file.Close()` runs and it returns `nil`.
The second component is the trace of resource events of the call. -/
def loadFrom (path : String) (r : Except GoError File) :
    Option GoError × List Event :=
  match r with
  | .error err =>
      (some (.errorString ("opening config file: " ++ err.error)),
       [.openCall path false])
  | .ok file =>
      (none, [.openCall path true, .closeCall file.path])

/-- `load(path)`: the loader with the path as a parameter, as the spec
generalises the snippet (the example hardcodes `"config.json"`). -/
def load (fs : FS) (path : String) : Option GoError × List Event :=
  loadFrom path (osOpen fs path)

/-- `readConfig` exactly as in the source: `load` at the hardcoded
path `"config.json"`. -/
def readConfig (fs : FS) : Option GoError × List Event :=
  load fs "config.json"

/-- The documented variant of `readConfig` from `Errors/Readme.md`,
identical except that it wraps with the `%w` verb, producing an error
whose cause remains reachable through `Unwrap`. -/
def loadFromDocumented (path : String) (r : Except GoError File) :
    Option GoError × List Event :=
  match r with
  | .error err =>
      (some (.wrapError ("opening config file: " ++ err.error) err),
       [.openCall path false])
  | .ok file =>
      (none, [.openCall path true, .closeCall file.path])

/-- The documented `readConfig` over the abstract filesystem. -/
def loadDocumented (fs : FS) (path : String) : Option GoError × List Event :=
  loadFromDocumented path (osOpen fs path)

/-- A filesystem on which no path is present. -/
def emptyFS : FS := ⟨fun _ => false⟩

/-- A filesystem on which every path is present. -/
def fullFS : FS := ⟨fun _ => true⟩

/-- The flat error `readConfig` returns when `config.json` is absent. -/
def notFoundFlat : GoError :=
  .errorString "opening config file: open config.json: no such file or directory"

/-- The wrapped error the documented `%w` variant returns when
`config.json` is absent. -/
def notFoundWrapped : GoError :=
  .wrapError "opening config file: open config.json: no such file or directory"
    (.pathError "open" "config.json" .errNotExist)

/-- Claim C1 (code bug): with `config.json` absent, the underlying open
error passes the `errors.Is`-style not-found check, but the error
`readConfig` returns does not — the `%s` verb flattened the cause to
text — whereas the repository's documented `%w` variant of the same
function does keep the check succeeding through the wrapper. -/
theorem c1_flatten_discards_cause :
    errorsIs (GoError.pathError "open" "config.json" GoError.errNotExist)
      GoError.errNotExist = true
    ∧ (readConfig emptyFS).fst = some notFoundFlat
    ∧ errorsIs notFoundFlat GoError.errNotExist = false
    ∧ (loadDocumented emptyFS "config.json").fst = some notFoundWrapped
    ∧ errorsIs notFoundWrapped GoError.errNotExist = true := by
  refine ⟨rfl, rfl, rfl, rfl, rfl⟩

/-- Claim C2 (counterexample): on a filesystem where `config.json` is
absent, the release counter after the call is 0, not 1 — release does
not occur on every call. -/
theorem c2_release_not_always_once :
    ¬ releaseCount (readConfig emptyFS).snd = 1 := by
  decide

/-- Claim C2 (amended): release occurs exactly once per call on which
the open succeeded, and zero times on a call on which the open failed. -/
theorem c2_release_once_iff_opened (fs : FS) :
    releaseCount (readConfig fs).snd =
      (match osOpen fs "config.json" with
        | .ok _ => 1
        | .error _ => 0) := by
  unfold readConfig load loadFrom osOpen
  by_cases h : fs.present "config.json" <;> simp [h, releaseCount]

/-- Claim C3: on every failing call the displayed text of the returned
error is exactly the context string `"opening config file: "` followed
by the full text of the underlying open error, so both are contained
in the message. -/
theorem c3_message_has_context_and_cause (fs : FS) (path : String)
    (e : GoError) (h : osOpen fs path = .error e) :
    (load fs path).fst =
      some (GoError.errorString ("opening config file: " ++ e.error)) := by
  unfold load loadFrom
  rw [h]

/-- Claim C3 witness: the concrete scenario — `config.json` absent —
yields the message `"opening config file: open config.json: no such
file or directory"`. -/
theorem c3_witness :
    (load emptyFS "config.json").fst =
      some (GoError.errorString
        "opening config file: open config.json: no such file or directory") := by
  have h := c3_message_has_context_and_cause emptyFS "config.json"
    (GoError.pathError "open" "config.json" GoError.errNotExist) rfl
  rw [h]
  rfl

/-- Claim C4: on every execution on which the open succeeded (the
Opened state was reached), the trace of the call is exactly the
successful open followed by the close of the same handle — so every
exit from Opened passes through Closed, after all use of the handle
and before the result is observable to the caller. -/
theorem c4_opened_implies_closed (fs : FS) (path : String)
    (h : Event.openCall path true ∈ (load fs path).snd) :
    (load fs path).snd = [Event.openCall path true, Event.closeCall path] := by
  unfold load loadFrom osOpen at *
  by_cases hp : fs.present path
  · simp [hp]
  · simp [hp] at h

/-- Claim C4 witness: on a filesystem where every path is present, the
trace of `load("config.json")` is the open followed by the close. -/
theorem c4_witness :
    (load fullFS "config.json").snd =
      [Event.openCall "config.json" true, Event.closeCall "config.json"] :=
  c4_opened_implies_closed fullFS "config.json" (by decide)

/-- Claim C5: for every path present on the filesystem (file contents,
including emptiness, play no role), `load(path)` returns no error and
the release counter after the call is 1. -/
theorem c5_success_and_released (fs : FS) (path : String)
    (h : fs.present path = true) :
    (load fs path).fst = none ∧ releaseCount (load fs path).snd = 1 := by
  unfold load loadFrom osOpen
  simp [h, releaseCount]

/-- Claim C5 witness: at a filesystem where `config.json` is present,
the call succeeds and the release counter is 1. -/
theorem c5_witness :
    (load fullFS "config.json").fst = none ∧
      releaseCount (load fullFS "config.json").snd = 1 :=
  c5_success_and_released fullFS "config.json" rfl

/-- Claim C6: every call performs exactly one open attempt and at most
one close on the underlying primitive, whatever the filesystem and
path — no retries and no extra state. -/
theorem c6_one_open_at_most_one_close (fs : FS) (path : String) :
    openCount (load fs path).snd = 1 ∧ releaseCount (load fs path).snd ≤ 1 := by
  unfold load loadFrom osOpen
  by_cases h : fs.present path <;> simp [h, openCount, releaseCount]

/-- Claim C7: when the open fails, the call returns the context-wrapped
error at once: the whole observable outcome is the wrapped error plus a
trace holding the single failed open — no retry, no close, no logging
event, no other state change. -/
theorem c7_immediate_propagation (fs : FS) (path : String) (e : GoError)
    (h : osOpen fs path = .error e) :
    load fs path =
      (some (GoError.errorString ("opening config file: " ++ e.error)),
       [Event.openCall path false]) := by
  unfold load loadFrom
  rw [h]

/-- Claim C7 witness: with `config.json` absent the call returns the
wrapped not-found error and the trace holds only the failed open. -/
theorem c7_witness :
    load emptyFS "config.json" =
      (some notFoundFlat, [Event.openCall "config.json" false]) := by
  have h := c7_immediate_propagation emptyFS "config.json"
    (GoError.pathError "open" "config.json" GoError.errNotExist) rfl
  rw [h]
  rfl

/-- Claim C8: the loader validates nothing itself: whenever
`load(path)` returns an error — for any path, the empty string
included — that error is the context-wrapping of the error the open
primitive produced; the loader never produces an error of its own. -/
theorem c8_errors_originate_from_open (fs : FS) (path : String)
    (err : GoError) (h : (load fs path).fst = some err) :
    ∃ e, osOpen fs path = .error e ∧
      err = GoError.errorString ("opening config file: " ++ e.error) := by
  unfold load loadFrom at h
  by_cases hp : fs.present path
  · unfold osOpen at h
    simp [hp] at h
  · refine ⟨.pathError "open" path .errNotExist, ?_, ?_⟩
    · unfold osOpen
      simp [hp]
    · unfold osOpen at h
      simp [hp] at h
      exact h.symm

/-- Claim C8 witness: even the empty path is delegated to the open
primitive, whose not-found failure is returned wrapped. -/
theorem c8_witness :
    ∃ e, osOpen emptyFS "" = .error e ∧
      GoError.errorString "opening config file: open : no such file or directory" =
        GoError.errorString ("opening config file: " ++ e.error) :=
  c8_errors_originate_from_open emptyFS ""
    (GoError.errorString "opening config file: open : no such file or directory") rfl

/-- Claim C9: on every failing call to `readConfig` the deferred close
was never registered, so the release counter after the call is 0. -/
theorem c9_no_release_on_failure (fs : FS) (e : GoError)
    (h : osOpen fs "config.json" = .error e) :
    releaseCount (readConfig fs).snd = 0 := by
  unfold readConfig load loadFrom
  rw [h]
  rfl

/-- Claim C9 witness: with `config.json` absent the release counter
after the call is 0. -/
theorem c9_witness : releaseCount (readConfig emptyFS).snd = 0 :=
  c9_no_release_on_failure emptyFS
    (GoError.pathError "open" "config.json" GoError.errNotExist) rfl

/-- Claim C10: `readConfig` is a function of the open outcome alone:
two runs whose open calls return the same result return identical
values — `nil` when the open succeeded, and otherwise an error whose
message is exactly `"opening config file: "` followed by the
underlying error's text. -/
theorem c10_deterministic_in_open (fsa fsb : FS)
    (h : osOpen fsa "config.json" = osOpen fsb "config.json") :
    readConfig fsa = readConfig fsb ∧
    (readConfig fsa).fst =
      (match osOpen fsa "config.json" with
        | .ok _ => none
        | .error e =>
            some (GoError.errorString ("opening config file: " ++ e.error))) := by
  constructor
  · unfold readConfig load
    rw [h]
  · unfold readConfig load loadFrom
    cases osOpen fsa "config.json" <;> rfl

/-- Claim C10 witness: two runs over the all-absent filesystem agree,
and the returned message is the wrapped underlying text. -/
theorem c10_witness :
    readConfig emptyFS = readConfig emptyFS ∧
    (readConfig emptyFS).fst =
      (match osOpen emptyFS "config.json" with
        | .ok _ => none
        | .error e =>
            some (GoError.errorString ("opening config file: " ++ e.error))) :=
  c10_deterministic_in_open emptyFS emptyFS rfl

end ConfigLoader
